import Mathlib

/-
  Verification of the AAG Cloud Sensor driver (AAG.py) against its
  natural-language specification.

  The embedding follows the source file AAG.py.  Conventions:
  - Python floats are modelled as rationals (Q); the quantities involved in
    the verified claims are exact decimal constants and small sums, so no
    binary-float rounding is load-bearing.
  - A Python expression that can raise is modelled in `Except String`
    (the string names the Python exception class).
  - Device / database interaction is modelled by passing the observed
    responses (resp. the queried history entries) as explicit arguments.
-/

set_option maxRecDepth 10000

/- ===================================================================
   Sample aggregation
   (AAG.py: get_ambient_temperature, get_sky_temperature,
            get_rain_frequency, get_wind_speed)
   =================================================================== -/

/-- Insertion step of an insertion sort on rationals. -/
def insertSorted (x : ℚ) : List ℚ → List ℚ
  | [] => [x]
  | y :: ys => if x ≤ y then x :: y :: ys else y :: insertSorted x ys

/-- Sort a list of rationals ascending. -/
def sortRats (l : List ℚ) : List ℚ := l.foldr insertSorted []

/-- np.median: middle element of the sorted list for odd length, mean of the
two middle elements for even length. -/
def npMedian (l : List ℚ) : ℚ :=
  let s := sortRats l
  if s.length % 2 = 1 then s.getD (s.length / 2) 0
  else (s.getD (s.length / 2 - 1) 0 + s.getD (s.length / 2) 0) / 2

/-- The `values` list built by the aggregation loops: the loop body runs `n`
times; attempt `i` either appends a converted value (`q i = some v`) or is
discarded by the bare `except: pass` (`q i = none`).  `q i` stands for the
outcome of `float(self.query(...)[0])` and the unit conversion at attempt
`i`. -/
def collectValues (q : Nat → Option ℚ) (n : Nat) : List ℚ :=
  (List.range n).foldl (fun acc i => match q i with
    | some v => acc ++ [v]
    | none => acc) []

/-- AAG.py lines 292-320 (source default n=5): median of the collected values
when `len(values) >= n - 1`, else None. -/
def get_ambient_temperature (q : Nat → Option ℚ) (n : Nat) : Option ℚ :=
  if n - 1 ≤ (collectValues q n).length then some (npMedian (collectValues q n))
  else none

/-- AAG.py lines 322-348 (source default n=9): same `n - 1` policy. -/
def get_sky_temperature (q : Nat → Option ℚ) (n : Nat) : Option ℚ :=
  if n - 1 ≤ (collectValues q n).length then some (npMedian (collectValues q n))
  else none

/-- AAG.py lines 405-424 (source default n=5): same `n - 1` policy. -/
def get_rain_frequency (q : Nat → Option ℚ) (n : Nat) : Option ℚ :=
  if n - 1 ≤ (collectValues q n).length then some (npMedian (collectValues q n))
  else none

/-- AAG.py lines 535-560 (source default n=3).  Gated on
`wind_speed_enabled()`; note the acceptance test in the source is the
hard-coded `len(values) >= 3`, not `>= n - 1`. -/
def get_wind_speed (wind_enabled : Bool) (q : Nat → Option ℚ) (n : Nat) :
    Option ℚ :=
  if wind_enabled then
    if 3 ≤ (collectValues q n).length then some (npMedian (collectValues q n))
    else none
  else none

/-- Outcome of one iteration of the get_values loop (AAG.py lines 368-379):
the single try block computes and appends internal voltage, then LDR
resistance, then rain sensor temperature, in that order, and an exception
at any stage (query returned None, float conversion, division by zero; the
rain conversion also involves np.log, abstracted here with the rest of the
arithmetic into the produced value) skips only the remaining appends of
that iteration, keeping the earlier ones. -/
inductive ValuesAttempt where
  | fail0
  | fail1 (voltage : ℚ)
  | fail2 (voltage ldr : ℚ)
  | ok3 (voltage ldr rain : ℚ)

/-- The internal-voltage value appended by one get_values iteration. -/
def internalVoltageOf : ValuesAttempt → Option ℚ
  | .fail0 => none
  | .fail1 v => some v
  | .fail2 v _ => some v
  | .ok3 v _ _ => some v

/-- The LDR-resistance value appended by one get_values iteration. -/
def ldrResistanceOf : ValuesAttempt → Option ℚ
  | .fail0 => none
  | .fail1 _ => none
  | .fail2 _ l => some l
  | .ok3 _ l _ => some l

/-- The rain-sensor-temperature value appended by one get_values
iteration. -/
def rainSensorTempOf : ValuesAttempt → Option ℚ
  | .fail0 => none
  | .fail1 _ => none
  | .fail2 _ _ => none
  | .ok3 _ _ r => some r

/-- AAG.py lines 350-403 (source default n=5): three parallel values lists
filled by the same n-iteration loop, each reduced independently by the
`len >= n - 1` median policy (internal voltage, LDR resistance, rain
sensor temperature, in that order). -/
def get_values (qv : Nat → ValuesAttempt) (n : Nat) :
    Option ℚ × Option ℚ × Option ℚ :=
  (if n - 1 ≤ (collectValues (fun i => internalVoltageOf (qv i)) n).length
    then some (npMedian (collectValues (fun i => internalVoltageOf (qv i)) n))
    else none,
   if n - 1 ≤ (collectValues (fun i => ldrResistanceOf (qv i)) n).length
    then some (npMedian (collectValues (fun i => ldrResistanceOf (qv i)) n))
    else none,
   if n - 1 ≤ (collectValues (fun i => rainSensorTempOf (qv i)) n).length
    then some (npMedian (collectValues (fun i => rainSensorTempOf (qv i)) n))
    else none)

/-- C1 counterexample: for wind speed (n = 3) with exactly one failed attempt
out of three (so `n - 1 = 2` successes, values 10 and 12), the source returns
None, whereas the claim says the result equals the median 11 of the collected
values. -/
theorem wind_speed_two_of_three_absent :
    get_wind_speed true
      (fun i => if i = 0 then some 10 else if i = 2 then some 12 else none) 3
      = none
    ∧ (collectValues
        (fun i => if i = 0 then some 10 else if i = 2 then some 12 else none)
        3).length = 3 - 1
    ∧ npMedian (collectValues
        (fun i => if i = 0 then some 10 else if i = 2 then some 12 else none)
        3) = 11 := by
  refine ⟨by decide, by decide, ?_⟩
  have h : collectValues
      (fun i => if i = 0 then some 10 else if i = 2 then some 12 else none) 3
      = [10, 12] := by decide
  rw [h]
  norm_num [npMedian, sortRats, insertSorted]

/-- C1 (amended): the `n - 1` minimum-valid-count policy with median
aggregation holds for ambient temperature (n=5), sky temperature (n=9),
rain frequency (n=5), and each of the three quantities of get_values
(internal voltage, LDR resistance, rain sensor temperature; n=5); wind
speed instead requires at least 3 collected values (the hard-coded
`len(values) >= 3`), so with its repeat count n = 3 no failed attempt is
tolerated, and nothing is measured when the anemometer is disabled. -/
theorem aggregation_median_policy (q : Nat → Option ℚ)
    (qv : Nat → ValuesAttempt) (n : Nat) :
    (n - 1 ≤ (collectValues q n).length →
      get_ambient_temperature q n = some (npMedian (collectValues q n)))
    ∧ ((collectValues q n).length < n - 1 → get_ambient_temperature q n = none)
    ∧ (n - 1 ≤ (collectValues q n).length →
      get_sky_temperature q n = some (npMedian (collectValues q n)))
    ∧ ((collectValues q n).length < n - 1 → get_sky_temperature q n = none)
    ∧ (n - 1 ≤ (collectValues q n).length →
      get_rain_frequency q n = some (npMedian (collectValues q n)))
    ∧ ((collectValues q n).length < n - 1 → get_rain_frequency q n = none)
    ∧ (3 ≤ (collectValues q n).length →
      get_wind_speed true q n = some (npMedian (collectValues q n)))
    ∧ ((collectValues q n).length < 3 → get_wind_speed true q n = none)
    ∧ get_wind_speed false q n = none
    ∧ (n - 1 ≤ (collectValues (fun i => internalVoltageOf (qv i)) n).length →
      (get_values qv n).1
        = some (npMedian (collectValues (fun i => internalVoltageOf (qv i)) n)))
    ∧ ((collectValues (fun i => internalVoltageOf (qv i)) n).length < n - 1 →
      (get_values qv n).1 = none)
    ∧ (n - 1 ≤ (collectValues (fun i => ldrResistanceOf (qv i)) n).length →
      (get_values qv n).2.1
        = some (npMedian (collectValues (fun i => ldrResistanceOf (qv i)) n)))
    ∧ ((collectValues (fun i => ldrResistanceOf (qv i)) n).length < n - 1 →
      (get_values qv n).2.1 = none)
    ∧ (n - 1 ≤ (collectValues (fun i => rainSensorTempOf (qv i)) n).length →
      (get_values qv n).2.2
        = some (npMedian (collectValues (fun i => rainSensorTempOf (qv i)) n)))
    ∧ ((collectValues (fun i => rainSensorTempOf (qv i)) n).length < n - 1 →
      (get_values qv n).2.2 = none) := by
  refine ⟨fun h => ?_, fun h => ?_, fun h => ?_, fun h => ?_, fun h => ?_,
    fun h => ?_, fun h => ?_, fun h => ?_, ?_, fun h => ?_, fun h => ?_,
    fun h => ?_, fun h => ?_, fun h => ?_, fun h => ?_⟩ <;>
    simp only [get_ambient_temperature, get_sky_temperature,
      get_rain_frequency, get_wind_speed, get_values, if_true, if_false] <;>
    first
      | (rw [if_pos h]; rfl)
      | (rw [if_neg (by omega)]; rfl)
      | rw [if_pos h]
      | rw [if_neg (by omega)]
      | rfl

/-- C1 witness: with all three wind attempts succeeding (values 0, 1, 2)
the wind aggregate is the median, and with all five get_values attempts
fully succeeding the internal-voltage aggregate is the median of its five
collected values. -/
theorem aggregation_median_policy_witness :
    (get_wind_speed true (fun i => some (i : ℚ)) 3
      = some (npMedian (collectValues (fun i => some (i : ℚ)) 3)))
    ∧ ((get_values (fun i => ValuesAttempt.ok3 (i : ℚ) 2 3) 5).1
      = some (npMedian (collectValues
          (fun i => internalVoltageOf (ValuesAttempt.ok3 (i : ℚ) 2 3)) 5))) :=
  ⟨(aggregation_median_policy (fun i => some (i : ℚ))
      (fun i => ValuesAttempt.ok3 (i : ℚ) 2 3) 3).2.2.2.2.2.2.1 (by decide),
    (aggregation_median_policy (fun i => some (i : ℚ))
      (fun i => ValuesAttempt.ok3 (i : ℚ) 2 3) 5).2.2.2.2.2.2.2.2.2.1
      (by decide)⟩

/- ===================================================================
   Protocol engine: command dispatch  (AAG.py: __init__ command tables,
   query lines 259-290)
   =================================================================== -/

/-- One token of a command regex: the patterns in `self.commands` consist of
literal characters and the class backslash-d. -/
inductive PatTok where
  | lit (c : Char)
  | digit
deriving DecidableEq

/-- A command pattern, matched against the request with re.match, i.e. as a
prefix of the request. -/
def patMatch : List PatTok → List Char → Bool
  | [], _ => true
  | _ :: _, [] => false
  | .lit c :: ps, x :: xs => if c = x then patMatch ps xs else false
  | .digit :: ps, x :: xs => if x.isDigit then patMatch ps xs else false

/-- A pattern of literal characters only. -/
def litPat (s : String) : List PatTok := s.data.map .lit

/-- The pattern for the set-PWM command, source text P backslash-d four
times then bang. -/
def pwmPat : List PatTok :=
  [.lit 'P', .digit, .digit, .digit, .digit, .lit '!']

/-- The keys of `self.commands` in dict insertion order (AAG.py lines
147-165); `query` and `send` scan them in this order and take the first
pattern that re.match accepts. -/
def commandPatterns : List (List PatTok) :=
  [litPat "!A", litPat "!B", litPat "!C", litPat "!D", litPat "!E",
   litPat "!F", litPat "!G", litPat "!H", pwmPat, litPat "!Q",
   litPat "!S", litPat "!T", litPat "!z", litPat "!K", litPat "v!",
   litPat "V!", litPat "M!", litPat "!Pxxxx"]

/-- The keys of `self.expects` (AAG.py lines 166-180).  Note that the
command keys !G, !H, !z and !Pxxxx have no entry here. -/
def expectKeys : List (List PatTok) :=
  [litPat "!A", litPat "!B", litPat "!C", litPat "!D", litPat "!E",
   litPat "!F", pwmPat, litPat "!Q", litPat "!S", litPat "!T",
   litPat "!K", litPat "v!", litPat "V!", litPat "M!"]

/-- The `found_command` loop of `query` (lines 260-268): first command
pattern matching the request, if any. -/
def findCommand (request : String) : Option (List PatTok) :=
  commandPatterns.find? (fun p => patMatch p request.data)

/-- Outcome of the dispatch prefix of `query` (lines 259-275): an unmatched
request is logged and query returns None; a matched request looks up
`self.expects[cmd]`, which raises KeyError when the command has no
expected-reply pattern; otherwise the retry loop runs. -/
inductive QueryDispatch where
  | unknown
  | keyError
  | proceeds (cmd : List PatTok)
deriving DecidableEq

/-- AAG.py lines 259-275 up to the retry loop. -/
def query_dispatch (request : String) : QueryDispatch :=
  match findCommand request with
  | none => .unknown
  | some p => if p ∈ expectKeys then .proceeds p else .keyError

/-- C8 counterexample: the requests !G, !H and !z each match a command
definition, yet `query` raises KeyError on `self.expects[cmd]` for them
instead of returning matched fields or None. -/
theorem switch_commands_keyerror :
    query_dispatch "!G" = .keyError ∧ query_dispatch "!H" = .keyError
    ∧ query_dispatch "!z" = .keyError := by
  refine ⟨?_, ?_, ?_⟩ <;> decide

/-- C8 (amended): for every request string, `query` either rejects it as an
unknown command (no pattern matches, returns None), or resolves it to the
first matching command definition; if that command has an expected-reply
entry the retry loop proceeds, but for the four command keys without an
expects entry (!G, !H, !z, !Pxxxx) the lookup `self.expects[cmd]` raises
KeyError. -/
theorem query_dispatch_trichotomy (request : String) :
    query_dispatch request = .unknown
    ∨ ∃ p, findCommand request = some p
        ∧ ((p ∈ expectKeys ∧ query_dispatch request = .proceeds p)
          ∨ (p ∈ [litPat "!G", litPat "!H", litPat "!z", litPat "!Pxxxx"]
              ∧ query_dispatch request = .keyError)) := by
  unfold query_dispatch
  cases h : findCommand request with
  | none => exact Or.inl rfl
  | some p =>
    refine Or.inr ⟨p, rfl, ?_⟩
    have hmem : p ∈ commandPatterns := List.mem_of_find?_eq_some h
    have hsplit : ∀ x ∈ commandPatterns, x ∈ expectKeys
        ∨ x ∈ [litPat "!G", litPat "!H", litPat "!z", litPat "!Pxxxx"] := by
      decide
    have hdisj : ∀ x ∈ [litPat "!G", litPat "!H", litPat "!z",
        litPat "!Pxxxx"], x ∉ expectKeys := by decide
    rcases hsplit p hmem with hin | hout
    · refine Or.inl ⟨hin, ?_⟩
      show (if p ∈ expectKeys then QueryDispatch.proceeds p
        else QueryDispatch.keyError) = QueryDispatch.proceeds p
      rw [if_pos hin]
    · refine Or.inr ⟨hout, ?_⟩
      show (if p ∈ expectKeys then QueryDispatch.proceeds p
        else QueryDispatch.keyError) = QueryDispatch.keyError
      rw [if_neg (hdisj p hout)]

/- ===================================================================
   Protocol engine: retry loop of query  (AAG.py lines 276-290)
   =================================================================== -/

/-- `self.hibernate` (AAG.py line 123): time in seconds slept after a failed
query attempt. -/
def hibernate : ℚ := 0.500

/-- The retry loop of `query`:
  count = 0; result = None
  while not result and (count <= maxtries):
      count += 1; result = send(...)
      if no match: result = None; sleep(hibernate) else result = groups
`matchRes i` is the outcome of matching the reply of send attempt `i`
(0-based) against the command's expected pattern: `some fields` on a match
(`fields` = the captured groups in pattern order), `none` on a mismatch.
The loop runs while `count <= maxtries` held before the increment, i.e. for
at most `maxtries + 1` iterations, which is the fuel argument here.  The
result is `(final result, number of send attempts, number of sleeps)`. -/
def queryGo (matchRes : Nat → Option α) :
    Nat → Nat → Nat → Option α × Nat × Nat
  | 0, attempts, sleeps => (none, attempts, sleeps)
  | fuel + 1, attempts, sleeps =>
    match matchRes attempts with
    | none => queryGo matchRes fuel (attempts + 1) (sleeps + 1)
    | some r => (some r, attempts + 1, sleeps)

/-- AAG.py lines 276-290 (`maxtries` source default 5). -/
def query_retry (matchRes : Nat → Option α) (maxtries : Nat) :
    Option α × Nat × Nat :=
  queryGo matchRes (maxtries + 1) 0 0

/-- The attempt counter of the retry loop grows by at most the fuel. -/
theorem queryGo_attempts_le (matchRes : Nat → Option α) :
    ∀ fuel attempts sleeps,
      (queryGo matchRes fuel attempts sleeps).2.1 ≤ attempts + fuel := by
  intro fuel
  induction fuel with
  | zero => intro a s; simp [queryGo]
  | succ n ih =>
    intro a s
    simp only [queryGo]
    cases matchRes a with
    | none => exact le_trans (ih (a + 1) (s + 1)) (by omega)
    | some r => simp

/-- If every attempt in the remaining window mismatches, the loop exhausts
its fuel. -/
theorem queryGo_all_none (matchRes : Nat → Option α) :
    ∀ fuel attempts sleeps,
      (∀ i, attempts ≤ i → i < attempts + fuel → matchRes i = none) →
      queryGo matchRes fuel attempts sleeps
        = (none, attempts + fuel, sleeps + fuel) := by
  intro fuel
  induction fuel with
  | zero => intro a s _; simp [queryGo]
  | succ n ih =>
    intro a s h
    have ha : matchRes a = none := h a (le_refl a) (by omega)
    simp only [queryGo, ha]
    rw [ih (a + 1) (s + 1) (fun i h1 h2 => h i (by omega) (by omega))]
    simp only [Prod.mk.injEq]
    refine ⟨trivial, by omega, by omega⟩

/-- If attempt `i` is the first match in the window, the loop stops there. -/
theorem queryGo_first_match (matchRes : Nat → Option α) (fields : α) :
    ∀ fuel attempts sleeps i,
      attempts ≤ i → i < attempts + fuel →
      (∀ j, attempts ≤ j → j < i → matchRes j = none) →
      matchRes i = some fields →
      queryGo matchRes fuel attempts sleeps
        = (some fields, i + 1, sleeps + (i - attempts)) := by
  intro fuel
  induction fuel with
  | zero => intro a s i h1 h2; omega
  | succ n ih =>
    intro a s i h1 h2 hnone hi
    rcases Nat.eq_or_lt_of_le h1 with heq | hlt
    · subst heq
      simp only [queryGo, hi]
      simp only [Prod.mk.injEq]
      refine ⟨trivial, trivial, by omega⟩
    · have ha : matchRes a = none := hnone a (le_refl a) hlt
      simp only [queryGo, ha]
      rw [ih (a + 1) (s + 1) i hlt (by omega)
        (fun j hj1 hj2 => hnone j (by omega) hj2) hi]
      simp only [Prod.mk.injEq]
      refine ⟨trivial, trivial, by omega⟩

/-- C7 counterexample: with the default maxtries = 5 and every reply
mismatching, `query` performs 6 send attempts (the while condition
`count <= maxtries` is tested before the increment), not at most 5 as the
claim states; it also sleeps the hibernation interval 6 times. -/
theorem query_six_attempts_default :
    (query_retry (fun _ => (none : Option ℚ)) 5).2.1 = 6
    ∧ (query_retry (fun _ => (none : Option ℚ)) 5).1 = none
    ∧ (query_retry (fun _ => (none : Option ℚ)) 5).2.2 = 6
    ∧ ¬ (6 ≤ 5) := by
  refine ⟨?_, ?_, ?_, by omega⟩ <;> decide

/-- C7 (amended): for a resolved command, `query` makes at most
`maxtries + 1` send attempts (6 with the default 5); after each mismatching
reply it discards the result and sleeps the fixed 500 ms hibernation
interval before retrying; if no attempt matches it returns None after
exactly `maxtries + 1` attempts and as many sleeps, and on the first
matching attempt `i` it returns the captured fields of the expected-reply
pattern with `i` sleeps. -/
theorem query_retry_bounds (matchRes : Nat → Option α) (maxtries : Nat) :
    (query_retry matchRes maxtries).2.1 ≤ maxtries + 1
    ∧ ((∀ i, i ≤ maxtries → matchRes i = none) →
        query_retry matchRes maxtries = (none, maxtries + 1, maxtries + 1))
    ∧ (∀ i fields, i ≤ maxtries → (∀ j, j < i → matchRes j = none) →
        matchRes i = some fields →
        query_retry matchRes maxtries = (some fields, i + 1, i))
    ∧ hibernate = 1 / 2 := by
  refine ⟨?_, ?_, ?_, by norm_num [hibernate]⟩
  · simpa using queryGo_attempts_le matchRes (maxtries + 1) 0 0
  · intro h
    unfold query_retry
    rw [queryGo_all_none matchRes (maxtries + 1) 0 0
      (fun i _ h2 => h i (by omega))]
    simp
  · intro i fields hi hnone hmatch
    unfold query_retry
    rw [queryGo_first_match matchRes fields (maxtries + 1) 0 0 i (by omega)
      (by omega) (fun j _ hj => hnone j hj) hmatch]
    simp

/-- C7 witness: a first match on attempt 2 (0-based) with maxtries = 5
returns the captured fields after 3 attempts and 2 sleeps. -/
theorem query_retry_bounds_witness :
    query_retry (fun i => if i = 2 then some (42 : ℚ) else none) 5
      = (some 42, 3, 2) :=
  (query_retry_bounds (fun i => if i = 2 then some (42 : ℚ) else none)
    5).2.2.1 2 42 (by omega) (fun j hj => by interval_cases j <;> rfl)
    (by norm_num)

/- ===================================================================
   PWM setter  (AAG.py: set_PWM, lines 443-465)
   =================================================================== -/

/-- Python int(): truncation toward zero. -/
def pyInt (q : ℚ) : Int := if q < 0 then ⌈q⌉ else ⌊q⌋

/-- The retry loop of `set_PWM`:
  while not success and count <= ntries:
      result = query(P....!); count += 1
      if result: PWM = float(result[0]) * 100 / 1023
                 if abs(PWM - percent) > 5: sleep(2) else success = True
`raw i` is the numeric first field of the reply to attempt `i`, or `none`
when the query returned None (then `self.PWM` keeps its previous value and
the loop just retries).  The loop runs at most `ntries + 1` times (the
condition is tested before the increment); that bound is the fuel.  Returns
`(final self.PWM, number of attempts)`. -/
def setPWMGo (raw : Nat → Option ℚ) (percent : ℚ) :
    Nat → Nat → Option ℚ → Option ℚ × Nat
  | 0, count, pwm => (pwm, count)
  | fuel + 1, count, pwm =>
    match raw count with
    | none => setPWMGo raw percent fuel (count + 1) pwm
    | some v =>
      if |v * 100 / 1023 - percent| > 5 then
        setPWMGo raw percent fuel (count + 1) (some (v * 100 / 1023))
      else (some (v * 100 / 1023), count + 1)

/-- AAG.py lines 443-465 (`ntries` source default 15): clamp the requested
percent into [0, 100] by the two leading ifs, then run the readback loop.
`pwm0` is the value of `self.PWM` on entry. -/
def set_PWM (raw : Nat → Option ℚ) (percent : ℚ) (pwm0 : Option ℚ)
    (ntries : Nat) : Option ℚ × Nat :=
  setPWMGo raw
    (if (if percent < 0 then 0 else percent) > 100 then 100
      else if percent < 0 then 0 else percent)
    (ntries + 1) 0 pwm0

/-- The attempt counter of the set_PWM loop grows by at most the fuel. -/
theorem setPWMGo_attempts_le (raw : Nat → Option ℚ) (percent : ℚ) :
    ∀ fuel count pwm,
      (setPWMGo raw percent fuel count pwm).2 ≤ count + fuel := by
  intro fuel
  induction fuel with
  | zero => intro c p; simp [setPWMGo]
  | succ n ih =>
    intro c p
    simp only [setPWMGo]
    cases raw c with
    | none => exact le_trans (ih (c + 1) p) (by omega)
    | some v =>
      show (if |v * 100 / 1023 - percent| > 5 then
          setPWMGo raw percent n (c + 1) (some (v * 100 / 1023))
        else (some (v * 100 / 1023), c + 1)).2 ≤ c + (n + 1)
      by_cases hv : |v * 100 / 1023 - percent| > 5
      · rw [if_pos hv]; exact le_trans (ih (c + 1) _) (by omega)
      · rw [if_neg hv]
        show c + 1 ≤ c + (n + 1)
        omega

/-- If every attempt in the window fails to return a result, the loop
exhausts its fuel leaving `self.PWM` untouched. -/
theorem setPWMGo_all_none (raw : Nat → Option ℚ) (percent : ℚ) :
    ∀ fuel count pwm,
      (∀ i, count ≤ i → i < count + fuel → raw i = none) →
      setPWMGo raw percent fuel count pwm = (pwm, count + fuel) := by
  intro fuel
  induction fuel with
  | zero => intro c p _; simp [setPWMGo]
  | succ n ih =>
    intro c p h
    have hc : raw c = none := h c (le_refl c) (by omega)
    simp only [setPWMGo, hc]
    rw [ih (c + 1) p (fun i h1 h2 => h i (by omega) (by omega))]
    simp only [Prod.mk.injEq]
    exact ⟨trivial, by omega⟩

/-- If attempt `i` is the first to return an in-tolerance readback while all
earlier attempts either returned nothing or an out-of-tolerance value, the
loop stops at attempt `i` with the decoded readback. -/
theorem setPWMGo_first_success (raw : Nat → Option ℚ) (percent : ℚ) (v : ℚ) :
    ∀ fuel count pwm i,
      count ≤ i → i < count + fuel →
      (∀ j, count ≤ j → j < i →
        raw j = none ∨ ∃ w, raw j = some w ∧ |w * 100 / 1023 - percent| > 5) →
      raw i = some v → ¬ (|v * 100 / 1023 - percent| > 5) →
      (setPWMGo raw percent fuel count pwm).1 = some (v * 100 / 1023)
      ∧ (setPWMGo raw percent fuel count pwm).2 = i + 1 := by
  intro fuel
  induction fuel with
  | zero => intro c p i h1 h2; omega
  | succ n ih =>
    intro c p i h1 h2 hprev hv htol
    rcases Nat.eq_or_lt_of_le h1 with heq | hlt
    · subst heq
      simp only [setPWMGo, hv]
      rw [if_neg htol]
      exact ⟨rfl, rfl⟩
    · rcases hprev c (le_refl c) hlt with hc | ⟨w, hw, hwt⟩
      · simp only [setPWMGo, hc]
        exact ih (c + 1) p i hlt (by omega)
          (fun j hj1 hj2 => hprev j (by omega) hj2) hv htol
      · simp only [setPWMGo, hw]
        rw [if_pos hwt]
        exact ih (c + 1) _ i hlt (by omega)
          (fun j hj1 hj2 => hprev j (by omega) hj2) hv htol

/-- The value of `self.PWM` after a run of attempts none of which
succeeded: each attempt that returned a readback overwrote `self.PWM` with
its decoded value, an attempt that returned None left it alone; so this is
the decoded last reported value, or the initial `pwm` when no attempt
reported one. -/
def pwmAfterFailures (raw : Nat → Option ℚ) :
    Nat → Nat → Option ℚ → Option ℚ
  | 0, _, pwm => pwm
  | fuel + 1, count, pwm =>
    match raw count with
    | none => pwmAfterFailures raw fuel (count + 1) pwm
    | some v => pwmAfterFailures raw fuel (count + 1) (some (v * 100 / 1023))

/-- If every attempt in the window returns nothing or an out-of-tolerance
readback, the loop exhausts its fuel and `self.PWM` ends as the last
reported value (initial value if none was reported). -/
theorem setPWMGo_exhaust (raw : Nat → Option ℚ) (percent : ℚ) :
    ∀ fuel count pwm,
      (∀ i, count ≤ i → i < count + fuel →
        raw i = none ∨ ∃ w, raw i = some w ∧ |w * 100 / 1023 - percent| > 5) →
      setPWMGo raw percent fuel count pwm
        = (pwmAfterFailures raw fuel count pwm, count + fuel) := by
  intro fuel
  induction fuel with
  | zero => intro c p _; simp [setPWMGo, pwmAfterFailures]
  | succ n ih =>
    intro c p h
    rcases h c (le_refl c) (by omega) with hc | ⟨w, hw, hwt⟩
    · simp only [setPWMGo, pwmAfterFailures, hc]
      rw [ih (c + 1) p (fun i h1 h2 => h i (by omega) (by omega))]
      simp only [Prod.mk.injEq]
      refine ⟨by first | rfl | trivial, by omega⟩
    · simp only [setPWMGo, pwmAfterFailures, hw]
      rw [if_pos hwt]
      rw [ih (c + 1) _ (fun i h1 h2 => h i (by omega) (by omega))]
      simp only [Prod.mk.injEq]
      refine ⟨by first | rfl | trivial, by omega⟩

/-- C9 counterexample: with the default ntries = 15 and a device that always
echoes raw 0 (readback 0 percent) for a request of 50 percent, the loop
performs 16 attempts (the while condition `count <= ntries` is tested before
the increment), not at most 15 as the claim states. -/
theorem set_pwm_sixteen_attempts :
    (set_PWM (fun _ => some 0) 50 none 15).2 = 16
    ∧ (set_PWM (fun _ => some 0) 50 none 15).1 = some 0
    ∧ ¬ (16 ≤ 15) := by
  refine ⟨?_, ?_, by omega⟩
  · show (setPWMGo (fun _ => some 0) 50 16 0 none).2 = 16
    norm_num [setPWMGo]
  · show (setPWMGo (fun _ => some 0) 50 16 0 none).1 = some 0
    norm_num [setPWMGo]

/-- C9 (amended): `set_PWM` first clamps the requested percent into
[0, 100]; it retries while the decoded readback differs from the request by
more than 5 percentage points; it always terminates after at most
`ntries + 1` attempts (16 with the default 15) with no exception: if no
attempt yields a readback, `self.PWM` is left unchanged after exactly
`ntries + 1` attempts; on the first in-tolerance readback it stops with
that decoded value; and when every attempt returns nothing or an
out-of-tolerance readback, it runs all `ntries + 1` attempts and accepts
the last reported value (decoded readback of the last attempt that
returned one, initial `self.PWM` if none did) without raising. -/
theorem set_pwm_clamp_and_retry (raw : Nat → Option ℚ) (percent : ℚ)
    (pwm0 : Option ℚ) (ntries : Nat) :
    (set_PWM raw percent pwm0 ntries).2 ≤ ntries + 1
    ∧ (percent < 0 →
        set_PWM raw percent pwm0 ntries = set_PWM raw 0 pwm0 ntries)
    ∧ (percent > 100 →
        set_PWM raw percent pwm0 ntries = set_PWM raw 100 pwm0 ntries)
    ∧ ((∀ i, i ≤ ntries → raw i = none) →
        set_PWM raw percent pwm0 ntries = (pwm0, ntries + 1))
    ∧ (∀ i v, 0 ≤ percent → percent ≤ 100 → i ≤ ntries →
        (∀ j, j < i → raw j = none
          ∨ ∃ w, raw j = some w ∧ |w * 100 / 1023 - percent| > 5) →
        raw i = some v → |v * 100 / 1023 - percent| ≤ 5 →
        set_PWM raw percent pwm0 ntries = (some (v * 100 / 1023), i + 1))
    ∧ (0 ≤ percent → percent ≤ 100 →
        (∀ i, i ≤ ntries → raw i = none
          ∨ ∃ w, raw i = some w ∧ |w * 100 / 1023 - percent| > 5) →
        set_PWM raw percent pwm0 ntries
          = (pwmAfterFailures raw (ntries + 1) 0 pwm0, ntries + 1)) := by
  refine ⟨?_, ?_, ?_, ?_, ?_, ?_⟩
  · exact (setPWMGo_attempts_le raw _ (ntries + 1) 0 pwm0).trans (by omega)
  · intro h
    unfold set_PWM
    rw [if_pos h]
    norm_num
  · intro h
    unfold set_PWM
    rw [if_neg (show ¬ percent < 0 by linarith), if_pos h]
    norm_num
  · intro h
    unfold set_PWM
    rw [setPWMGo_all_none raw _ (ntries + 1) 0 pwm0
      (fun i _ h2 => h i (by omega))]
    norm_num
  · intro i v h0 h100 hi hprev hv htol
    have hcl : (if (if percent < 0 then 0 else percent) > 100 then 100
        else if percent < 0 then 0 else percent) = percent := by
      rw [if_neg (not_lt.mpr h0), if_neg (not_lt.mpr h100)]
    unfold set_PWM
    rw [hcl]
    have h12 := setPWMGo_first_success raw percent v (ntries + 1) 0 pwm0 i
      (by omega) (by omega) (fun j _ hj => hprev j hj) hv (not_lt.mpr htol)
    exact Prod.ext_iff.mpr ⟨h12.1, h12.2⟩
  · intro h0 h100 hall
    have hcl : (if (if percent < 0 then 0 else percent) > 100 then 100
        else if percent < 0 then 0 else percent) = percent := by
      rw [if_neg (not_lt.mpr h0), if_neg (not_lt.mpr h100)]
    unfold set_PWM
    rw [hcl]
    rw [setPWMGo_exhaust raw percent (ntries + 1) 0 pwm0
      (fun i _ h2 => hall i (by omega))]
    norm_num

/-- C9 witness: a first-attempt readback of raw 512 (50.05 percent) for a
request of 50 percent is within tolerance, so the setter stops after one
attempt; and with every readback raw 0 (0 percent, out of tolerance for a
request of 50) the setter runs all 16 attempts and accepts the last
reported value. -/
theorem set_pwm_clamp_and_retry_witness :
    set_PWM (fun _ => some 512) 50 none 15 = (some (512 * 100 / 1023), 1)
    ∧ set_PWM (fun _ => some 0) 50 none 15
      = (pwmAfterFailures (fun _ => some 0) 16 0 none, 16) :=
  ⟨(set_pwm_clamp_and_retry (fun _ => some 512) 50 none 15).2.2.2.2.1 0 512
      (by norm_num) (by norm_num) (by omega) (fun j hj => by omega)
      rfl (by rw [abs_le]; norm_num),
    (set_pwm_clamp_and_retry (fun _ => some 0) 50 none 15).2.2.2.2.2
      (by norm_num) (by norm_num)
      (fun i hi => Or.inr ⟨0, rfl, by norm_num⟩)⟩

/- ===================================================================
   Heater controller  (AAG.py: AAG_heater_algorithm lines 611-648,
   calculate_and_set_PWM lines 650-732)
   =================================================================== -/

/-- AAG.py lines 611-648.  The source is a single if/elif chain over
`deltaT = last_entry[rain_sensor_temp_C] - target` with `scaling = 0.5`,
assigning `deltaPWM` and finally returning `int(deltaPWM)`.  The chain has
no final else; when no branch fires, `deltaPWM` was never assigned and
`return int(deltaPWM)` raises UnboundLocalError, modelled here as `none`. -/
def AAG_heater_algorithm (deltaT : ℚ) : Option Int :=
  if deltaT > 8 then some (pyInt ((-40) * 0.5))
  else if deltaT > 4 then some (pyInt ((-20) * 0.5))
  else if deltaT > 3 then some (pyInt ((-10) * 0.5))
  else if deltaT > 2 then some (pyInt ((-6) * 0.5))
  else if deltaT > 1 then some (pyInt ((-4) * 0.5))
  else if deltaT > 0.5 then some (pyInt ((-2) * 0.5))
  else if deltaT > 0.3 then some (pyInt ((-1) * 0.5))
  else if deltaT < -0.3 then some (pyInt (1 * 0.5))
  else if deltaT < -0.5 then some (pyInt (2 * 0.5))
  else if deltaT < -1 then some (pyInt (4 * 0.5))
  else if deltaT < -2 then some (pyInt (6 * 0.5))
  else if deltaT < -3 then some (pyInt (10 * 0.5))
  else if deltaT < -4 then some (pyInt (20 * 0.5))
  else if deltaT < -8 then some (pyInt (40 * 0.5))
  else none

/-- C6: the heater lookup function does not equal the reference table.  At
deltaT = -10 the first matching band in source order is `deltaT < -0.3`
(all deeper negative bands are dead code), giving int(1 * 0.5) = 0 rather
than the table's +40 * 0.5 = 20; and at deltaT = 0 no band matches at all,
so the source raises UnboundLocalError instead of returning 0. -/
theorem heater_table_shadowed_and_unbound :
    AAG_heater_algorithm (-10) = some 0
    ∧ AAG_heater_algorithm (-10) ≠ some (pyInt (40 * 0.5))
    ∧ pyInt (40 * 0.5) = 20
    ∧ AAG_heater_algorithm 0 = none
    ∧ AAG_heater_algorithm 0.2 = none
    ∧ AAG_heater_algorithm (-0.2) = none := by
  have h40 : pyInt (40 * 0.5) = 20 := by
    norm_num [pyInt]
  have hm10 : AAG_heater_algorithm (-10) = some 0 := by
    norm_num [AAG_heater_algorithm, pyInt]
  refine ⟨hm10, ?_, h40, ?_, ?_, ?_⟩
  · rw [hm10, h40]; decide
  · norm_num [AAG_heater_algorithm]
  · norm_num [AAG_heater_algorithm]
  · norm_num [AAG_heater_algorithm]

/-- The impulse-heating decision block of `calculate_and_set_PWM`
(AAG.py lines 678-699).  Inputs: the `rain_safe` flags of the history
entries found in the last `impulse_cycle` seconds, the current state
`(impulse_heating, impulse_start)`, the cycle timestamp `now` and the
configured `impulse_duration`.  `not np.any(rain_history)` is true when no
flag is truthy.  Python would raise TypeError computing `now - None` if
`impulse_heating` were set with no `impulse_start`; the source never
creates that state, and it is modelled as an error. -/
def impulse_mode_transition (rain_history : List Bool)
    (impulse_heating : Bool) (impulse_start : Option ℚ)
    (now impulse_duration : ℚ) : Except String (Bool × Option ℚ) :=
  if 3 < rain_history.length ∧ rain_history.any id = false then
    if impulse_heating then
      match impulse_start with
      | none => .error "TypeError"
      | some t =>
        if now - t > impulse_duration then .ok (false, none)
        else .ok (true, some t)
    else .ok (true, some now)
  else .ok (false, none)

/-- C5: the impulse state machine.  With more than 3 rain-safe flags, none
of them safe: a Proportional state (impulse_heating false) becomes Impulse
with impulse_start = now; an Impulse state stays Impulse while
`now - impulse_start` has not exceeded impulse_duration and otherwise
returns to Proportional clearing impulse_start; and without the
persistent-rain signal the state is forced to Proportional with
impulse_start cleared. -/
theorem impulse_heating_state_machine (rain_history : List Bool)
    (now dur : ℚ) :
    (3 < rain_history.length → rain_history.any id = false →
      ∀ start, impulse_mode_transition rain_history false start now dur
        = .ok (true, some now))
    ∧ (3 < rain_history.length → rain_history.any id = false →
      ∀ t, ¬ (now - t > dur) →
        impulse_mode_transition rain_history true (some t) now dur
          = .ok (true, some t))
    ∧ (3 < rain_history.length → rain_history.any id = false →
      ∀ t, now - t > dur →
        impulse_mode_transition rain_history true (some t) now dur
          = .ok (false, none))
    ∧ (¬ (3 < rain_history.length ∧ rain_history.any id = false) →
      ∀ heating start,
        impulse_mode_transition rain_history heating start now dur
          = .ok (false, none)) := by
  refine ⟨?_, ?_, ?_, ?_⟩
  · intro h1 h2 start
    unfold impulse_mode_transition
    rw [if_pos ⟨h1, h2⟩]
    rfl
  · intro h1 h2 t ht
    unfold impulse_mode_transition
    rw [if_pos ⟨h1, h2⟩]
    simp only [if_true]
    rw [if_neg ht]
  · intro h1 h2 t ht
    unfold impulse_mode_transition
    rw [if_pos ⟨h1, h2⟩]
    simp only [if_true]
    rw [if_pos ht]
  · intro h heating start
    unfold impulse_mode_transition
    rw [if_neg h]

/-- C5 witness: four all-unsafe flags flip a Proportional state into
Impulse at now = 100; an Impulse started at 30 with duration 60 is turned
off at now = 100; and with any safe flag present the state is forced back
to Proportional. -/
theorem impulse_heating_state_machine_witness :
    impulse_mode_transition [false, false, false, false] false none 100 60
      = .ok (true, some 100)
    ∧ impulse_mode_transition [false, false, false, false] true (some 30)
        100 60 = .ok (false, none)
    ∧ impulse_mode_transition [false, true, false, false] true (some 30)
        100 60 = .ok (false, none) :=
  ⟨(impulse_heating_state_machine [false, false, false, false] 100 60).1
      (by decide) (by decide) none,
    (impulse_heating_state_machine [false, false, false, false] 100 60).2.2.1
      (by decide) (by decide) 30 (by norm_num),
    (impulse_heating_state_machine [false, true, false, false] 100 60).2.2.2
      (by decide) true (some 30)⟩

/- ===================================================================
   Safety decision engine  (AAG.py: make_safety_decision lines 734-878,
   movingaverage lines 12-15)
   =================================================================== -/

/-- One weather sample as read back from the store: the fields of
`x[data]` that the safety decision touches; `none` marks a key absent
from the sample dict. -/
structure WeatherData where
  sky_temp_C : Option ℚ
  ambient_temp_C : Option ℚ
  wind_speed_KPH : Option ℚ
  rain_frequency : Option ℚ
deriving DecidableEq

/-- A history entry: persisted sample plus its `date` timestamp (seconds,
arbitrary epoch). -/
structure Entry where
  date : ℚ
  data : WeatherData
deriving DecidableEq

/-- Python dict subscript: raises KeyError when the key is absent. -/
def getItem (x : Option ℚ) : Except String ℚ :=
  match x with
  | some v => .ok v
  | none => .error "KeyError"

/-- Python max over a non-empty list ([] gives the dummy 0; the source only
applies it to non-empty lists). -/
def listMax : List ℚ → ℚ
  | [] => 0
  | x :: xs => xs.foldl max x

/-- Python min over a non-empty list (same remark). -/
def listMin : List ℚ → ℚ
  | [] => 0
  | x :: xs => xs.foldl min x

/-- The `sky_diff` comprehension (AAG.py lines 761-763).  The filter in the
source is `if (ambient_temp_C and sky_temp_C) in x[data].keys()`: the
parenthesised `and` of two non-empty strings evaluates to its right operand,
so only the presence of `sky_temp_C` is tested.  The body then subscripts
both keys, so an entry carrying `sky_temp_C` but not `ambient_temp_C`
raises KeyError. -/
def sky_diff_list : List Entry → Except String (List ℚ)
  | [] => .ok []
  | e :: rest =>
    match e.data.sky_temp_C with
    | none => sky_diff_list rest
    | some s =>
      match e.data.ambient_temp_C with
      | none => .error "KeyError"
      | some a => (sky_diff_list rest).map (fun l => (s - a) :: l)

/-- The Cloudiness block (AAG.py lines 760-784). -/
def skySection (threshold_cloudy threshold_very_cloudy : ℚ)
    (entries : List Entry) (current : WeatherData) :
    Except String (Bool × String) :=
  match sky_diff_list entries with
  | .error e => .error e
  | .ok sky_diff =>
    if sky_diff.length = 0 then .ok (false, "Unknown")
    else
      let sky_safe := if listMax sky_diff > threshold_very_cloudy then false
        else true
      match current.sky_temp_C with
      | none => .error "KeyError"
      | some cs =>
        match current.ambient_temp_C with
        | none => .error "KeyError"
        | some ca =>
          let last_cloud := cs - ca
          let cloud_condition :=
            if last_cloud > threshold_very_cloudy then "Very Cloudy"
            else if last_cloud > threshold_cloudy then "Cloudy"
            else "Clear"
          .ok (sky_safe, cloud_condition)

/-- One output point of `np.convolve(a, w, mode=same)`: entry `m` of the
full convolution, where the same-mode output starts at full index
`(len(w) - 1) / 2` (floor).  Out-of-range window indices contribute 0. -/
def convFullAt (a w : List ℚ) (m : Nat) : ℚ :=
  (List.range a.length).foldl
    (fun s j =>
      s + a.getD j 0 * (if j ≤ m ∧ m - j < w.length then w.getD (m - j) 0
        else 0))
    0

/-- AAG.py lines 12-15: moving average by convolution with a normalized
ones-window in same mode (output length = input length, centered). -/
def movingaverage (interval : List ℚ) (window_size : Nat) : List ℚ :=
  (List.range interval.length).map
    (fun i =>
      convFullAt interval (List.replicate window_size (1 / (window_size : ℚ)))
        (i + (window_size - 1) / 2))

/-- The Wind and Gust block (AAG.py lines 786-834).  `endT` is the window
end timestamp `end` computed from utcnow. -/
def windGustSection (threshold_windy threshold_very_windy threshold_gusty
    threshold_very_gusty : ℚ) (endT : ℚ) (entries : List Entry)
    (current : WeatherData) : Except String (Bool × Bool × String × String) :=
  let wind_speed := entries.filterMap (fun e => e.data.wind_speed_KPH)
  if wind_speed.length = 0 then .ok (false, false, "Unknown", "Unknown")
  else
    let typical_data_interval :=
      (endT - listMin (entries.map (fun e => e.date))) / (entries.length : ℚ)
    let mavg_count := (⌈(120 : ℚ) / typical_data_interval⌉).toNat
    let wind_mavg := movingaverage wind_speed mavg_count
    let wind_safe := if listMax wind_mavg > threshold_very_windy then false
      else true
    let wind_condition :=
      if wind_mavg.getLastD 0 > threshold_very_windy then "Very Windy"
      else if wind_mavg.getLastD 0 > threshold_windy then "Windy"
      else "Calm"
    let gust_safe := if listMax wind_speed > threshold_very_gusty then false
      else true
    match current.wind_speed_KPH with
    | none => .error "KeyError"
    | some current_wind =>
      let gust_condition :=
        if current_wind > threshold_very_gusty then "Very Gusty"
        else if current_wind > threshold_gusty then "Gusty"
        else "Calm"
      .ok (wind_safe, gust_safe, wind_condition, gust_condition)

/-- The Rain block (AAG.py lines 836-865). -/
def rainSection (threshold_rain threshold_wet : ℚ) (entries : List Entry)
    (current : WeatherData) : Except String (Bool × String) :=
  let rf_value := entries.filterMap (fun e => e.data.rain_frequency)
  if rf_value.length = 0 then .ok (false, "Unknown")
  else
    match current.rain_frequency with
    | none => .error "KeyError"
    | some rf =>
      let rain_condition :=
        if rf ≤ threshold_rain then "Rain"
        else if rf ≤ threshold_wet then "Wet"
        else "Dry"
      let rain_safe1 :=
        if rf ≤ threshold_rain then false
        else if rf ≤ threshold_wet then false
        else true
      let rain_safe :=
        if rain_safe1 then
          if listMin rf_value ≤ threshold_rain then false
          else if listMin rf_value ≤ threshold_wet then false
          else true
        else rain_safe1
      .ok (rain_safe, rain_condition)

/-- The composite verdict returned by make_safety_decision. -/
structure SafetyVerdict where
  safe : Bool
  sky : String
  wind : String
  gust : String
  rain : String
deriving DecidableEq

/-- AAG.py lines 734-878 (threshold parameters carry the source defaults
threshold_cloudy = -22.5, very_cloudy = -15, windy = 20, very_windy = 30,
gusty = 40, very_gusty = 50, wet = 2000, rainy = 1700).  `entries` is the
time-window query result, `current` the `current_values` argument. -/
def make_safety_decision (threshold_cloudy threshold_very_cloudy
    threshold_windy threshold_very_windy threshold_gusty
    threshold_very_gusty threshold_wet threshold_rain endT : ℚ)
    (entries : List Entry) (current : WeatherData) :
    Except String SafetyVerdict :=
  match skySection threshold_cloudy threshold_very_cloudy entries current with
  | .error e => .error e
  | .ok (sky_safe, cloud_condition) =>
    match windGustSection threshold_windy threshold_very_windy
        threshold_gusty threshold_very_gusty endT entries current with
    | .error e => .error e
    | .ok (wind_safe, gust_safe, wind_condition, gust_condition) =>
      match rainSection threshold_rain threshold_wet entries current with
      | .error e => .error e
      | .ok (rain_safe, rain_condition) =>
        .ok ⟨sky_safe && wind_safe && gust_safe && rain_safe,
          cloud_condition, wind_condition, gust_condition, rain_condition⟩

/-- C2: the sky_diff comprehension does not skip a historical sample that
carries `sky_temp_C` but lacks `ambient_temp_C`: filtering only tests
`sky_temp_C` (the string `and` collapses), so the body's
`x[data][ambient_temp_C]` raises KeyError on such a sample, instead of
skipping it without error as the claim states.  Samples lacking
`sky_temp_C` are skipped, samples with both fields contribute
`sky - ambient`, and an empty diff list yields the unsafe/Unknown sky
verdict. -/
theorem sky_diff_keyerror_on_missing_ambient :
    sky_diff_list [⟨0, ⟨some (-20), none, none, none⟩⟩] = .error "KeyError"
    ∧ sky_diff_list [⟨0, ⟨none, some 5, none, none⟩⟩] = .ok []
    ∧ sky_diff_list [⟨0, ⟨some (-20), some 3, none, none⟩⟩] = .ok [-23]
    ∧ skySection (-22.5) (-15) [⟨0, ⟨none, some 5, none, none⟩⟩]
        ⟨none, none, none, none⟩ = .ok (false, "Unknown")
    ∧ skySection (-22.5) (-15) [⟨0, ⟨some (-20), none, none, none⟩⟩]
        ⟨some (-20), some 3, none, none⟩ = .error "KeyError" := by
  refine ⟨rfl, rfl, ?_, rfl, rfl⟩
  have h : sky_diff_list [⟨0, ⟨some (-20), some 3, none, none⟩⟩]
      = .ok [(-20 : ℚ) - 3] := rfl
  rw [h]
  norm_num

/-- C4: a per-category missing field in the current sample is not contained
locally: with one history entry carrying wind (and sky and rain) readings
and a current sample lacking `wind_speed_KPH`, `make_safety_decision`
raises KeyError at `current_values[wind_speed_KPH]` and the cycle aborts,
instead of surfacing an absence/Unknown as the claim states.  With the
same history and a complete current sample the decision returns normally,
showing the error comes from the missing current field alone. -/
theorem safety_decision_keyerror_on_missing_current_wind :
    make_safety_decision (-22.5) (-15) 20 30 40 50 2000 1700 600
      [⟨0, ⟨some (-30), some 0, some 10, some 2500⟩⟩]
      ⟨some (-30), some 0, none, some 2500⟩ = .error "KeyError"
    ∧ make_safety_decision (-22.5) (-15) 20 30 40 50 2000 1700 600
        [⟨0, ⟨some (-30), some 0, some 10, some 2500⟩⟩]
        ⟨some (-30), some 0, some 10, some 2500⟩
      = .ok ⟨true, "Clear", "Calm", "Calm", "Dry"⟩
    ∧ make_safety_decision (-22.5) (-15) 20 30 40 50 2000 1700 600
        [⟨0, ⟨some (-30), some 0, some 10, some 2500⟩⟩]
        ⟨some (-30), some 0, some 10, none⟩ = .error "KeyError" := by
  have hceil : (⌈(1 : ℚ) / 5⌉ : ℤ) = 1 := by
    rw [Int.ceil_eq_iff]
    norm_num
  have hsky : skySection (-22.5) (-15)
      [⟨0, ⟨some (-30), some 0, some 10, some 2500⟩⟩]
      ⟨some (-30), some 0, some 10, some 2500⟩ = .ok (true, "Clear") := by
    norm_num [skySection, sky_diff_list, listMax, Except.map]
  have hwind : windGustSection 20 30 40 50 600
      [⟨0, ⟨some (-30), some 0, some 10, some 2500⟩⟩]
      ⟨some (-30), some 0, some 10, some 2500⟩
      = .ok (true, true, "Calm", "Calm") := by
    norm_num [windGustSection, movingaverage, convFullAt, listMax, listMin,
      List.filterMap_cons, List.filterMap_nil, hceil, List.range_succ,
      List.range_zero, List.replicate]
  have hrain : rainSection 1700 2000
      [⟨0, ⟨some (-30), some 0, some 10, some 2500⟩⟩]
      ⟨some (-30), some 0, some 10, some 2500⟩ = .ok (true, "Dry") := by
    norm_num [rainSection, listMin, List.filterMap_cons, List.filterMap_nil]
  refine ⟨rfl, ?_, rfl⟩
  simp only [make_safety_decision, hsky, hwind, hrain]
  rfl

/-- C3: when the current sample classifies as Dry (rain_frequency above
both thresholds) but the minimum rain_frequency over the window falls at
or below threshold_rain or threshold_wet, the rain-safe flag is overridden
to false while the condition label stays the current-sample label Dry. -/
theorem rain_override_keeps_dry_label (threshold_rain threshold_wet : ℚ)
    (entries : List Entry) (current : WeatherData) (rf : ℚ)
    (hc : current.rain_frequency = some rf)
    (h1 : ¬ rf ≤ threshold_rain) (h2 : ¬ rf ≤ threshold_wet)
    (hne : entries.filterMap (fun e => e.data.rain_frequency) ≠ [])
    (hmin : listMin (entries.filterMap (fun e => e.data.rain_frequency))
        ≤ threshold_rain
      ∨ listMin (entries.filterMap (fun e => e.data.rain_frequency))
        ≤ threshold_wet) :
    rainSection threshold_rain threshold_wet entries current
      = .ok (false, "Dry") := by
  simp only [rainSection]
  rw [if_neg (by simpa using hne), hc]
  simp only [if_neg h1, if_neg h2, if_true]
  by_cases hr : listMin (entries.filterMap (fun e => e.data.rain_frequency))
      ≤ threshold_rain
  · simp [if_pos hr]
  · have hw : listMin (entries.filterMap (fun e => e.data.rain_frequency))
        ≤ threshold_wet := hmin.resolve_left hr
    simp [if_neg hr, if_pos hw]

/-- C3 witness: current rain_frequency 2500 is Dry against the default
thresholds 1700/2000, but a window minimum of 1600 forces rain-unsafe with
the label still Dry. -/
theorem rain_override_keeps_dry_label_witness :
    rainSection 1700 2000 [⟨0, ⟨none, none, none, some 1600⟩⟩]
      ⟨none, none, none, some 2500⟩ = .ok (false, "Dry") :=
  rain_override_keeps_dry_label 1700 2000
    [⟨0, ⟨none, none, none, some 1600⟩⟩] ⟨none, none, none, some 2500⟩
    2500 rfl (by norm_num) (by norm_num) (by decide)
    (Or.inl (by norm_num [listMin, List.filterMap_cons, List.filterMap_nil]))

/- ===================================================================
   Sample persistence  (AAG.py: capture lines 562-609) and the typed
   values it stores
   =================================================================== -/

/-- A value stored in the sample dict `data`: Python float, Python str, or
the nested errors dict of string counters. -/
inductive PyVal where
  | num (q : ℚ)
  | str (s : String)
  | sdict (d : List (String × Option String))
deriving DecidableEq

/-- Python 3 `<` on stored values: numbers compare with numbers and strings
with strings; comparing a str with a float raises TypeError. -/
def pyLt : PyVal → PyVal → Except String Bool
  | .num a, .num b => .ok (decide (a < b))
  | .str a, .str b => .ok (decide (a < b))
  | _, _ => .error "TypeError"

/-- Round half to even, the rounding of Python string formatting (applied
here to exact rationals; the binary-double rounding of the source can
differ on ties but never changes the stored type, which is what C10 is
about). -/
def roundHalfEven (x : ℚ) : Int :=
  if x - ⌊x⌋ > 1 / 2 then ⌊x⌋ + 1
  else if x - ⌊x⌋ < 1 / 2 then ⌊x⌋
  else if ⌊x⌋ % 2 = 0 then ⌊x⌋ else ⌊x⌋ + 1

/-- The format spec `.02f` of AAG.py line 585: fixed-point rendering with
two digits after the point. -/
def formatTwoDec (v : ℚ) : String :=
  let cents := roundHalfEven (v * 100)
  let sign := if cents < 0 then "-" else ""
  let a := cents.natAbs
  let frac := a % 100
  sign ++ toString (a / 100) ++ "." ++
    (if frac < 10 then "0" ++ toString frac else toString frac)

/-- Python truthiness of an optional scalar quantity as used by the
`if self.x:` guards of capture: None is falsy, and a scalar astropy
Quantity is truthy iff its value is nonzero. -/
def pyTruthyQ (x : Option ℚ) : Bool :=
  match x with
  | none => false
  | some v => if v = 0 then false else true

/-- AAG.py lines 570-593: the measured fields of the `data` dict built by
capture, in insertion order.  Every numeric field stores the bare float
`.value`; `rain_sensor_temp_C` alone stores the formatted string (line
585).  The safety labels appended after the safety decision (lines
596-602) are not needed by the claims and are omitted. -/
def captureMeasuredData (name firmware serial : String)
    (sky ambient voltage ldr rainT rainF pwm wind : Option ℚ)
    (errors : List (String × Option String)) : List (String × PyVal) :=
  [("weather_sensor_name", PyVal.str name),
   ("weather_sensor_firmware_version", PyVal.str firmware),
   ("weather_sensor_serial_number", PyVal.str serial)]
  ++ (if pyTruthyQ sky then [("sky_temp_C", PyVal.num (sky.getD 0))] else [])
  ++ (if pyTruthyQ ambient then
      [("ambient_temp_C", PyVal.num (ambient.getD 0))] else [])
  ++ (if pyTruthyQ voltage then
      [("internal_voltage_V", PyVal.num (voltage.getD 0))] else [])
  ++ (if pyTruthyQ ldr then
      [("ldr_resistance_Ohm", PyVal.num (ldr.getD 0))] else [])
  ++ (if pyTruthyQ rainT then
      [("rain_sensor_temp_C", PyVal.str (formatTwoDec (rainT.getD 0)))]
      else [])
  ++ (if pyTruthyQ rainF then
      [("rain_frequency", PyVal.num (rainF.getD 0))] else [])
  ++ (if pyTruthyQ pwm then [("pwm_value", PyVal.num (pwm.getD 0))] else [])
  ++ [("errors", PyVal.sdict errors)]
  ++ (if pyTruthyQ wind then
      [("wind_speed_KPH", PyVal.num (wind.getD 0))] else [])

/-- Membership in a conditionally-included segment. -/
theorem mem_ite_nil_iff {α : Type} {c : Prop} [Decidable c] {l : List α}
    {p : α} : (p ∈ (if c then l else [])) ↔ (c ∧ p ∈ l) := by
  by_cases hc : c <;> simp [hc]

/-- C10: whenever capture stores a rain-sensor temperature, it is stored
under `rain_sensor_temp_C` as the two-decimal formatted string, every other
measured scalar field is stored as a number, and the impulse-mode
comparison `last_entry[rain_sensor_temp_C] < target_temp` of
calculate_and_set_PWM (line 704, via AAG_heater_algorithm line 618) pits
that string against a float and raises TypeError rather than computing a
heater power. -/
theorem rain_sensor_temp_string_typeerror (name firmware serial : String)
    (sky ambient voltage ldr rainT rainF pwm wind : Option ℚ)
    (errors : List (String × Option String)) (v target : ℚ)
    (hv : rainT = some v) (hnz : v ≠ 0) :
    ("rain_sensor_temp_C", PyVal.str (formatTwoDec v))
      ∈ captureMeasuredData name firmware serial sky ambient voltage ldr
          rainT rainF pwm wind errors
    ∧ (∀ p ∈ captureMeasuredData name firmware serial sky ambient voltage
          ldr rainT rainF pwm wind errors,
        p.1 ∈ ["sky_temp_C", "ambient_temp_C", "internal_voltage_V",
          "ldr_resistance_Ohm", "rain_frequency", "pwm_value",
          "wind_speed_KPH"] → ∃ q, p.2 = PyVal.num q)
    ∧ pyLt (PyVal.str (formatTwoDec v)) (PyVal.num target)
        = .error "TypeError" := by
  subst hv
  refine ⟨?_, ?_, rfl⟩
  · have ht : pyTruthyQ (some v) = true := by
      simp [pyTruthyQ, if_neg hnz]
    simp [captureMeasuredData, ht, Option.getD]
  · intro p hp hkey
    simp only [captureMeasuredData, List.append_assoc, List.mem_append,
      List.mem_cons, List.not_mem_nil, mem_ite_nil_iff, List.mem_singleton,
      or_false] at hp
    rcases hp with (h | h | h) | ⟨hc, h⟩ | ⟨hc, h⟩ | ⟨hc, h⟩ | ⟨hc, h⟩
      | ⟨hc, h⟩ | ⟨hc, h⟩ | ⟨hc, h⟩ | h | ⟨hc, h⟩ <;>
      subst h <;>
      first
        | exact ⟨_, rfl⟩
        | simp at hkey

/-- C10 witness: a rain-sensor temperature of 5.25 degrees is stored as the
string 5.25 and the impulse-branch comparison with a numeric target of 17
raises TypeError. -/
theorem rain_sensor_temp_string_typeerror_witness :
    ("rain_sensor_temp_C", PyVal.str (formatTwoDec (21 / 4)))
      ∈ captureMeasuredData "CloudWatcher" "V5.00" "1234" (some (-5))
          (some 7) (some 3) (some 56) (some (21 / 4)) (some 2500) (some 50)
          none [("error_1", some "0")]
    ∧ pyLt (PyVal.str (formatTwoDec (21 / 4))) (PyVal.num 17)
        = .error "TypeError" :=
  ⟨(rain_sensor_temp_string_typeerror "CloudWatcher" "V5.00" "1234"
      (some (-5)) (some 7) (some 3) (some 56) (some (21 / 4)) (some 2500)
      (some 50) none [("error_1", some "0")] (21 / 4) 17 rfl
      (by norm_num)).1,
    (rain_sensor_temp_string_typeerror "CloudWatcher" "V5.00" "1234"
      (some (-5)) (some 7) (some 3) (some 56) (some (21 / 4)) (some 2500)
      (some 50) none [("error_1", some "0")] (21 / 4) 17 rfl
      (by norm_num)).2.2⟩
